import Mathlib

/-!
Shallow embedding of the mirror_bot core (the Mirror Store, the Mirror
Lifecycle Engine and the Payment Command Processor) for verification of the
design document's claims.

Modelling conventions:
- `f64` money amounts are modelled as `ℚ` (the claims only compare and add
  amounts, never rely on float rounding).
- `DateTime<Utc>` timestamps and `Duration`s are modelled as `Int`
  milliseconds.
- Rust strings are modelled as Lean `String`; for the title-truncation logic
  (which indexes by `len()`) titles are modelled as `List Char`, identifying
  bytes with characters (the claims speak of characters).
- Fallible store operations return `Except`; external platform calls are
  supplied by an `Env` record of oracles, and every outbound action (store
  write, payment send, market creation/resolution) is additionally recorded
  as an `Event` in an emitted trace, so that ordering claims are statements
  about traces.
-/

namespace MirrorBot

/-! ## Shared data model (src/types.rs) -/

/-- Question sources (types.rs `QuestionSource`). -/
inductive QuestionSource
  | kalshi
  | metaculus
  | polymarket
  | manual
deriving DecidableEq, Repr

/-- `Display for QuestionSource` (types.rs). -/
def QuestionSource.display : QuestionSource → String
  | .kalshi => "Kalshi"
  | .metaculus => "Metaculus"
  | .polymarket => "Polymarket"
  | .manual => "Manual"

/-- Normalized question (types.rs `Question`). `end_date` in millis. -/
structure Question where
  source : QuestionSource
  source_url : String
  source_id : String
  question : String
  criteria : Option String
  end_date : Int
deriving DecidableEq, Repr

/-- Binary resolutions (types.rs `BinaryResolution`). -/
inductive BinaryResolution
  | yes
  | no
  | percent (p : ℚ)
  | cancel
deriving DecidableEq, Repr

/-! ## Configuration (src/settings.rs) -/

/-- settings.rs `MarketTemplate`. -/
structure MarketTemplate where
  description_footer : String
  title_retain_end_characters : Nat
  max_question_length : Nat
  max_description_length : Nat
deriving DecidableEq, Repr

/-- settings.rs `Managrams`. `resolve_cost` is referenced by
managrams.rs (`cfg.resolve_cost`); the settings.rs revision in the tree
only lists `min_amount` and `mirror_cost`, so the field is included here to
match the code that uses it. -/
structure ManagramsConfig where
  min_amount : ℚ
  mirror_cost : ℚ
  resolve_cost : ℚ
deriving DecidableEq, Repr

/-- settings.rs `Manifold` (the fields the core uses). `client_url` is the
base url used by `ManifoldMarket::url`. -/
structure ManifoldConfig where
  user_id : String
  client_url : String
  template : MarketTemplate
  managrams : ManagramsConfig
deriving DecidableEq, Repr

/-- settings.rs `Settings` restricted to the fields the verified core
reads: the Manifold section, the per-source group ids and daily budgets. -/
structure Settings where
  manifold : ManifoldConfig
  kalshi_add_group_ids : List String
  kalshi_max_clones_per_day : Nat
  metaculus_add_group_ids : List String
  metaculus_max_clones_per_day : Nat
deriving DecidableEq, Repr

/-! ## Store rows (src/db.rs) -/

/-- db.rs `MirrorRow` (a row of the `markets` table). -/
structure MirrorRow where
  id : Int
  clone_date : Int
  manifold_contract_id : String
  manifold_url : String
  source : QuestionSource
  source_id : String
  source_url : String
  question : String
  resolved : Bool
deriving DecidableEq, Repr

/-- db.rs `ThirdPartyMirrorRow` (a row of the `third_party_markets` table). -/
structure ThirdPartyMirrorRow where
  id : Int
  manifold_contract_id : String
  manifold_url : String
  source : QuestionSource
  source_id : String
  created_time : Int
deriving DecidableEq, Repr

/-- The slice of a `managrams` table row that the processing paths read or
write: the unique transaction id and the processed flag. -/
structure ManagramRow where
  txn_id : String
  processed : Bool
deriving DecidableEq, Repr

/-- The relational store: the three tables of db.rs `init_tables`, plus the
next rowid for `markets` inserts. -/
structure Db where
  markets : List MirrorRow
  third_party_markets : List ThirdPartyMirrorRow
  managrams : List ManagramRow
  next_market_id : Int
deriving DecidableEq, Repr

/-- db.rs `get_mirror_by_source_id`: first `markets` row matching
`(source, source_id)`. -/
def get_mirror_by_source_id (db : Db) (source : QuestionSource)
    (source_id : String) : Option MirrorRow :=
  db.markets.find? fun r => decide (r.source = source ∧ r.source_id = source_id)

/-- db.rs `get_mirror_by_contract_id`. -/
def get_mirror_by_contract_id (db : Db) (contract_id : String) :
    Option MirrorRow :=
  db.markets.find? fun r => decide (r.manifold_contract_id = contract_id)

/-- db.rs `get_third_party_mirror_by_source_id`. -/
def get_third_party_mirror_by_source_id (db : Db) (source : QuestionSource)
    (source_id : String) : Option ThirdPartyMirrorRow :=
  db.third_party_markets.find? fun r =>
    decide (r.source = source ∧ r.source_id = source_id)

/-- db.rs `AnyMirror`. -/
inductive AnyMirror
  | mirror (m : MirrorRow)
  | thirdPartyMirror (m : ThirdPartyMirrorRow)
deriving DecidableEq, Repr

/-- db.rs `get_any_mirror`: owned mirrors first, then third-party. -/
def get_any_mirror (db : Db) (source : QuestionSource) (source_id : String) :
    Option AnyMirror :=
  match get_mirror_by_source_id db source source_id with
  | some mirror => some (.mirror mirror)
  | none =>
    match get_third_party_mirror_by_source_id db source source_id with
    | some mirror => some (.thirdPartyMirror mirror)
    | none => none

/-- db.rs `get_unresolved_mirrors`: `markets` rows with `resolved = FALSE`,
optionally filtered by source. -/
def get_unresolved_mirrors (db : Db) (source : Option QuestionSource) :
    List MirrorRow :=
  match source with
  | some s => db.markets.filter fun r => decide (r.source = s ∧ r.resolved = false)
  | none => db.markets.filter fun r => decide (r.resolved = false)

/-- db.rs `set_mirror_resolved`: single-row UPDATE by rowid; errors when no
row matched (`changed == 0`). -/
def set_mirror_resolved (db : Db) (id : Int) (resolved : Bool) :
    Except Unit Db :=
  if db.markets.any fun r => decide (r.id = id) then
    .ok { db with
          markets := db.markets.map fun r =>
            if r.id = id then { r with resolved := resolved } else r }
  else
    .error ()

/-- db.rs `set_managram_processed`: single-row UPDATE by `txn_id`; errors
when no row matched. -/
def set_managram_processed (db : Db) (id : String) (processed : Bool) :
    Except Unit Db :=
  if db.managrams.any fun r => decide (r.txn_id = id) then
    .ok { db with
          managrams := db.managrams.map fun r =>
            if r.txn_id = id then { r with processed := processed } else r }
  else
    .error ()

/-! ## Destination platform data (src/manifold.rs) -/

/-- manifold.rs `LiteMarket` (the fields the core reads). -/
structure LiteMarket where
  id : String
  question : String
  slug : String
  created_time : Int
  close_time : Int
  is_resolved : Bool
deriving DecidableEq, Repr

/-- manifold.rs `FullMarket` (the fields the core reads). The creator field
is accessed as `author_id` by managrams.rs. -/
structure FullMarket where
  id : String
  author_id : String
  question : String
  slug : String
  is_resolved : Bool
deriving DecidableEq, Repr

/-- manifold.rs `ManifoldMarket::url`: client base url joined with
`market/` and the slug. -/
def market_url (cfg : Settings) (slug : String) : String :=
  cfg.manifold.client_url ++ "market/" ++ slug

/-- Managram (inbound payment) as parsed from Manifold
(manifold.rs `Managram`). Amount as ℚ, timestamp as millis. -/
structure Managram where
  id : String
  group_id : String
  from_id : String
  to_id : String
  created_time : Int
  amount : ℚ
  message : String
deriving DecidableEq, Repr

/-- db.rs `insert_mirror`: INSERT into `markets` with `clone_date = now`,
`resolved` defaulting to FALSE; fails with a conflict error when the
`manifold_contract_id` UNIQUE constraint or the `(source, source_id)`
unique index would be violated. -/
def insert_mirror (db : Db) (now : Int) (market : LiteMarket)
    (market_url : String) (q : Question) : Except Unit (Db × MirrorRow) :=
  if db.markets.any fun r =>
      decide (r.manifold_contract_id = market.id ∨
        (r.source = q.source ∧ r.source_id = q.source_id)) then
    .error ()
  else
    let row : MirrorRow :=
      { id := db.next_market_id
        clone_date := now
        manifold_contract_id := market.id
        manifold_url := market_url
        source := q.source
        source_id := q.source_id
        source_url := q.source_url
        question := q.question
        resolved := false }
    .ok ({ db with
           markets := db.markets ++ [row]
           next_market_id := db.next_market_id + 1 }, row)

/-! ## Market construction (manifold.rs `CreateMarketArgs`) -/

/-- `Duration::days(1)` in milliseconds. -/
def millisPerDay : Int := 86400000

/-- `Duration::weeks(1)` in milliseconds. -/
def millisPerWeek : Int := 7 * 86400000

/-- The formatted title `"[{source}] {question}"` built at the top of
manifold.rs `CreateMarketArgs::title_from_question`, as characters. -/
def formatted_title (q : Question) : List Char :=
  ("[" ++ q.source.display ++ "] " ++ q.question).toList

/-- manifold.rs `CreateMarketArgs::title_from_question`: format the title
and, when it exceeds `max_question_length`, splice the range
`cut_start..cut_end` out and put `"..."` in its place
(`String::replace_range`). -/
def title_from_question (tmpl : MarketTemplate) (q : Question) : List Char :=
  let title := formatted_title q
  if title.length > tmpl.max_question_length then
    let suffix_len := tmpl.title_retain_end_characters + 3
    let to_remove := title.length + 3 - tmpl.max_question_length
    let cut_start := tmpl.max_question_length - suffix_len
    let cut_end := cut_start + to_remove
    title.take cut_start ++ "...".toList ++ title.drop cut_end
  else
    title

/-- manifold.rs `Question::embed_html` (types.rs): only Metaculus questions
have an embed. -/
def Question.embed_html (q : Question) : Option String :=
  match q.source with
  | .metaculus =>
    some ("<iframe src=\"https://www.metaculus.com/questions/question_embed/"
      ++ q.source_id ++ "/?theme=dark\" style=\"height:430px; width:100%; max-width:550px\"></iframe>")
  | _ => none

/-- manifold.rs `CreateMarketArgs::description_from_question`: header with a
back-link to the source, optional embed, optional criteria block, footer,
truncated to `max_description_length` with a trailing `"..."`. -/
def description_from_question (tmpl : MarketTemplate) (q : Question) : String :=
  let embed :=
    match q.embed_html with
    | some embed_html => "\n\n" ++ embed_html
    | none => ""
  let description :=
    "### " ++ q.question ++ "\n\nResolves the same as [the original on "
      ++ q.source.display ++ "](" ++ q.source_url ++ ")." ++ embed ++ "\n\n---\n\n"
  let description :=
    match q.criteria with
    | some criteria =>
      description ++ "**Resolution criteria**\n\n" ++ criteria ++ "\n\n---\n\n"
    | none => description
  let description := description ++ tmpl.description_footer
  if description.length > tmpl.max_description_length then
    ((description.toList.take (tmpl.max_description_length - 3)).asString) ++ "..."
  else
    description

/-- manifold.rs `CreateMarketArgs::group_ids_from_question`. The Polymarket
arm is `todo!()` in the source (unreachable for mirrored questions); it is
rendered as the empty list here. -/
def group_ids_from_question (q : Question) (cfg : Settings) : List String :=
  match q.source with
  | .metaculus => cfg.metaculus_add_group_ids
  | .kalshi => cfg.kalshi_add_group_ids
  | .polymarket => []
  | .manual => []

/-- manifold.rs `CreateMarketArgs` (serialized request body of the
create-market call). -/
structure CreateMarketArgs where
  question : List Char
  description_markdown : String
  close_time : Int
  initial_prob : Nat
  group_ids : List String
deriving DecidableEq, Repr

/-- manifold.rs `CreateMarketArgs::from_question`. `now` stands for the
`Utc::now()` read in the close-time computation. -/
def CreateMarketArgs.from_question (cfg : Settings) (now : Int)
    (q : Question) : CreateMarketArgs :=
  { question := title_from_question cfg.manifold.template q
    description_markdown := description_from_question cfg.manifold.template q
    close_time :=
      if q.end_date > now then q.end_date + millisPerDay
      else now + millisPerWeek
    initial_prob := 50
    group_ids := group_ids_from_question q cfg }

/-! ## Events and environment

Every externally visible action of an operation is recorded in order in a
trace, so that the happens-before claims become statements about lists. -/

/-- Observable actions, in program order. `markProcessed` records a
`set_managram_processed` write attempt together with whether the store
reported success; `sendManagram` records the outbound payment call being
issued; `createMarket` / `resolveMarket` record destination-platform calls;
`setMirrorResolved` records the `markets.resolved` write;
`getMirrorByContractId` records the store lookup of the resolve command;
`fetchSource` records the source re-fetch of `sync_mirror`;
`mirrorAttempt` records an invocation of `mirror_*_question` by the
auto-mirror loop. -/
inductive Event
  | markProcessed (txn_id : String) (value : Bool) (ok : Bool)
  | sendManagram (to_ids : List String) (amount : ℚ) (message : String)
  | createMarket
  | resolveMarket (contract_id : String)
  | setMirrorResolved (row_id : Int) (value : Bool)
  | getMirrorByContractId (contract_id : String)
  | fetchSource (source : QuestionSource) (source_id : String)
  | mirrorAttempt (source : QuestionSource) (source_id : String)
deriving DecidableEq, Repr

/-- Result of manifold.rs `get_market_by_slug` as observed by
managrams.rs: a market, a 404 (`ErrorResponse(NOT_FOUND, _)`), or any other
`ManifoldError`. -/
inductive SlugLookup
  | found (market : FullMarket)
  | notFound
  | otherError
deriving Repr

/-- mirror.rs error taxonomy (`MirrorError`), plus `panic` for the
`todo!()` arms of the source. `platform` covers `KalshiError` /
`ManifoldError`, `store` covers rusqlite failures wrapped in `Other`. -/
inductive MirrorError
  | alreadyMirrored (m : MirrorRow)
  | platform
  | store
  | panic
deriving DecidableEq, Repr

/-- managrams.rs `ManagramProcessingError`, plus `panic` for the `todo!()`
arms reachable from a mirror command for an unimplemented source. -/
inductive ProcessingError
  | userFacing (msg : String)
  | internal
  | panic
deriving DecidableEq, Repr

/-- managrams.rs `ResponseAmount`. -/
inductive ResponseAmount
  | refund
  | minimum
  | amount (a : ℚ)
deriving DecidableEq, Repr

/-- Parsed managram command (managrams.rs `ManagramCommands`). The
`mirror` target carries the `(source, source_id)` produced by
`MirrorTarget::parse_arg` and the `--force` flag; the `resolve` target is a
`MarketIdentifier`. -/
inductive MarketIdentifier
  | id (s : String)
  | slug (s : String)
deriving DecidableEq, Repr

structure MirrorTarget where
  source : QuestionSource
  source_id : String
deriving DecidableEq, Repr

structure MirrorArgs where
  target : MirrorTarget
  force : Bool
deriving DecidableEq, Repr

inductive ManagramCommand
  | mirror (args : MirrorArgs)
  | resolve (target : MarketIdentifier)
  | ping
  | unknown (raw : List String)
deriving DecidableEq, Repr

/-- External collaborators, as oracles. `parse_message` stands for clap's
`ManagramArgs::try_parse_from(message.split_whitespace())` (the parser
itself is library code); `check_resolution` collapses a source platform's
`get_question` + `get_binary_resolution` (error = platform failure, `none`
= not yet resolved); `metaculus_get_question` yields the normalized
question for the managram mirror path (fetch + conversion);
`request_filter` is the verdict of metaculus.rs
`check_question_requirements` with the request filter; `send_managram_ok`
is whether the outbound payment call succeeds; `resolve_market_ok` whether
the destination resolve call succeeds. `now` is the wall clock. -/
structure Env where
  parse_message : String → Except String ManagramCommand
  get_market_by_slug : String → SlugLookup
  get_market : String → Except Unit FullMarket
  create_market : CreateMarketArgs → Except Unit LiteMarket
  check_resolution : QuestionSource → String → Except Unit (Option BinaryResolution)
  metaculus_get_question : String → Except Unit Question
  request_filter : Question → Except String Unit
  resolve_market_ok : String → Bool
  send_managram_ok : Bool
  now : Int

/-! ## Mirror Lifecycle Engine (src/mirror.rs) -/

/-- mirror.rs `mirror_question`: advisory existence check, then the
destination create-market call, then the store insert. Returns the updated
store, the trace of actions and the result. -/
def mirror_question (env : Env) (db : Db) (cfg : Settings) (q : Question) :
    Db × List Event × Except MirrorError MirrorRow :=
  match get_mirror_by_source_id db q.source q.source_id with
  | some mirror => (db, [], .error (.alreadyMirrored mirror))
  | none =>
    match env.create_market (CreateMarketArgs.from_question cfg env.now q) with
    | .error _ => (db, [.createMarket], .error .platform)
    | .ok market =>
      match insert_mirror db env.now market (market_url cfg market.slug) q with
      | .error _ => (db, [.createMarket], .error .store)
      | .ok (db1, row) => (db1, [.createMarket], .ok row)

/-- mirror.rs `mirror_metaculus_question`: the optional criteria re-fetch
and the `MetaculusQuestion → Question` conversion are collapsed into the
environment-provided normalized question; the call then defers to
`mirror_question` exactly as in the source. -/
def mirror_metaculus_question (env : Env) (db : Db) (cfg : Settings)
    (q : Question) : Db × List Event × Except MirrorError MirrorRow :=
  mirror_question env db cfg q

/-- mirror.rs `resolve_mirror`: destination resolve call, then
`set_mirror_resolved(db, mirror.id, true)`. -/
def resolve_mirror (env : Env) (db : Db) (mirror : MirrorRow) :
    Db × List Event × Except MirrorError Unit :=
  if env.resolve_market_ok mirror.manifold_contract_id then
    match set_mirror_resolved db mirror.id true with
    | .ok db1 =>
      (db1, [.resolveMarket mirror.manifold_contract_id,
             .setMirrorResolved mirror.id true], .ok ())
    | .error _ =>
      (db, [.resolveMarket mirror.manifold_contract_id,
            .setMirrorResolved mirror.id true], .error .store)
  else
    (db, [.resolveMarket mirror.manifold_contract_id], .error .platform)

/-- Common body of mirror.rs `sync_kalshi_mirror` / `sync_metaculus_mirror`:
re-fetch the source question; if it reports a binary resolution, resolve
the mirror and return true, else return false without side effects. -/
def sync_source_mirror (env : Env) (db : Db) (mirror : MirrorRow) :
    Db × List Event × Except MirrorError Bool :=
  match env.check_resolution mirror.source mirror.source_id with
  | .error _ =>
    (db, [.fetchSource mirror.source mirror.source_id], .error .platform)
  | .ok none =>
    (db, [.fetchSource mirror.source mirror.source_id], .ok false)
  | .ok (some _) =>
    match resolve_mirror env db mirror with
    | (db1, tr, .ok ()) =>
      (db1, .fetchSource mirror.source mirror.source_id :: tr, .ok true)
    | (db1, tr, .error e) =>
      (db1, .fetchSource mirror.source mirror.source_id :: tr, .error e)

/-- mirror.rs `sync_mirror`: dispatch on the mirror's source. The
Polymarket arm is `todo!()` in the source; the `manual` source has no arm
at all (it is never persisted as a mirror source); both are rendered as
`panic`. -/
def sync_mirror (env : Env) (db : Db) (mirror : MirrorRow) :
    Db × List Event × Except MirrorError Bool :=
  match mirror.source with
  | .metaculus => sync_source_mirror env db mirror
  | .kalshi => sync_source_mirror env db mirror
  | .polymarket => (db, [], .error .panic)
  | .manual => (db, [], .error .panic)

/-- mirror.rs `sync_manifold_mirror_to_db` (reconciliation): fetch the
destination market state; when the stored `resolved` flag disagrees,
overwrite it with the destination's `is_resolved` value. -/
def sync_manifold_mirror_to_db (env : Env) (db : Db) (mirror : MirrorRow) :
    Db × List Event × Except MirrorError Unit :=
  match env.get_market mirror.manifold_contract_id with
  | .error _ => (db, [], .error .platform)
  | .ok market =>
    if mirror.resolved ≠ market.is_resolved then
      match set_mirror_resolved db mirror.id market.is_resolved with
      | .ok db1 =>
        (db1, [.setMirrorResolved mirror.id market.is_resolved], .ok ())
      | .error _ =>
        (db, [.setMirrorResolved mirror.id market.is_resolved], .error .store)
    else
      (db, [], .ok ())

/-! ## Autonomous selection (mirror.rs `auto_mirror_kalshi` /
`auto_mirror_metaculus`) -/

/-- The count of unresolved mirrors for `source` with
`clone_date > now - Duration::days(1)` (the `clone_count_today` local of
the auto-mirror functions). -/
def clone_count_today (db : Db) (source : QuestionSource) (now : Int) : Nat :=
  ((get_unresolved_mirrors db (some source)).filter fun m =>
    decide (m.clone_date > now - millisPerDay)).length

/-- The candidate list the auto-mirror loop iterates: raw candidates with
an existing `get_any_mirror` entry dropped, cut to
`min(remaining_budget, len(candidates))` where `remaining_budget =
max_clones_per_day - min(clone_count_today, max_clones_per_day)`
(mirror.rs lines 107-131 / 166-190, shared shape of both sources). -/
def auto_mirror_selected (db : Db) (source : QuestionSource)
    (max_clones_per_day : Nat) (now : Int) (raw_candidates : List Question) :
    List Question :=
  let candidates := raw_candidates.filter fun q =>
    (get_any_mirror db source q.source_id).isNone
  let remaining_budget :=
    max_clones_per_day - min (clone_count_today db source now) max_clones_per_day
  let to_clone_count := min remaining_budget candidates.length
  candidates.take to_clone_count

/-- The per-candidate body of the auto-mirror loop: skip on `dry_run`,
otherwise invoke the per-source mirror function (which defers to
`mirror_question`), log and continue on failure. -/
def auto_mirror_step (env : Env) (cfg : Settings) (dry_run : Bool)
    (acc : Db × List Event) (q : Question) : Db × List Event :=
  if dry_run then acc
  else
    match mirror_question env acc.1 cfg q with
    | (db1, tr, _) =>
      (db1, acc.2 ++ .mirrorAttempt q.source q.source_id :: tr)

/-- mirror.rs `auto_mirror_kalshi` / `auto_mirror_metaculus` (they differ
only in source and config section): compute the selection, then run the
loop. `raw_candidates` is the list returned by the source's
`get_mirror_candidates`. -/
def auto_mirror (env : Env) (db : Db) (cfg : Settings)
    (source : QuestionSource) (max_clones_per_day : Nat)
    (raw_candidates : List Question) (dry_run : Bool) : Db × List Event :=
  (auto_mirror_selected db source max_clones_per_day env.now raw_candidates).foldl
    (auto_mirror_step env cfg dry_run) (db, [])

/-! ## Payment Command Processor (src/managrams.rs) -/

/-- managrams.rs `respond_to_managram`: evaluate the amount policy at send
time and issue the outbound payment call to `[managram.from_id]`. The
trace records the call being issued; the `Except` result reflects whether
`send_managram` succeeded. -/
def respond_to_managram (env : Env) (cfg : Settings) (managram : Managram)
    (amount : ResponseAmount) (message : String) :
    List Event × Except Unit Unit :=
  let amount :=
    match amount with
    | .refund => managram.amount
    | .minimum => cfg.manifold.managrams.min_amount
    | .amount a => a
  ([.sendManagram [managram.from_id] amount message],
   if env.send_managram_ok then .ok () else .error ())

/-- managrams.rs `process_managram_mirror_metaculus`: fetch the question
(failure is user-facing), run the request filter (failure is user-facing
with the filter's message), then mirror (failure is internal). -/
def process_managram_mirror_metaculus (env : Env) (db : Db) (cfg : Settings)
    (source_id : String) : Db × List Event × Except ProcessingError MirrorRow :=
  match env.metaculus_get_question source_id with
  | .error _ =>
    (db, [], .error (.userFacing
      ("Failed to fetch question with id " ++ source_id ++ " from Metaculus.")))
  | .ok question =>
    match env.request_filter question with
    | .error e => (db, [], .error (.userFacing e))
    | .ok _ =>
      match mirror_metaculus_question env db cfg question with
      | (db1, tr, .ok mirror) => (db1, tr, .ok mirror)
      | (db1, tr, .error _) => (db1, tr, .error .internal)

/-- The tail of managrams.rs `process_managram_mirror_command` after the
`get_any_mirror` check (lines 246-263): dispatch on the source (Kalshi and
Polymarket are `todo!()`), mark the managram processed, then respond with
the `Minimum` amount and the new mirror's url. -/
def managram_mirror_execute (env : Env) (db : Db) (cfg : Settings)
    (managram : Managram) (target : MirrorTarget) :
    Db × List Event × Except ProcessingError Unit :=
  match target.source with
  | .metaculus =>
    match process_managram_mirror_metaculus env db cfg target.source_id with
    | (db1, tr, .error e) => (db1, tr, .error e)
    | (db1, tr, .ok mirror) =>
      match set_managram_processed db1 managram.id true with
      | .error _ =>
        (db1, tr ++ [.markProcessed managram.id true false], .error .internal)
      | .ok db2 =>
        match respond_to_managram env cfg managram .minimum
            ("Created mirror at " ++ mirror.manifold_url) with
        | (rtr, .ok ()) =>
          (db2, tr ++ .markProcessed managram.id true true :: rtr, .ok ())
        | (rtr, .error ()) =>
          (db2, tr ++ .markProcessed managram.id true true :: rtr,
           .error .internal)
  | _ => (db, [], .error .panic)

/-- managrams.rs `process_managram_mirror_command`: amount gate, then the
`get_any_mirror` duplicate check (owned mirror always fails; third-party
fails unless `--force`), then `managram_mirror_execute`. -/
def process_managram_mirror_command (env : Env) (db : Db) (cfg : Settings)
    (managram : Managram) (args : MirrorArgs) :
    Db × List Event × Except ProcessingError Unit :=
  if managram.amount <
      cfg.manifold.managrams.mirror_cost + cfg.manifold.managrams.min_amount then
    (db, [], .error (.userFacing
      ("Mirror requests should include at least "
        ++ toString (cfg.manifold.managrams.mirror_cost
            + cfg.manifold.managrams.min_amount)
        ++ " mana.")))
  else
    match get_any_mirror db args.target.source args.target.source_id with
    | some (.mirror mirror) =>
      (db, [], .error (.userFacing
        ("Mirror already exists: " ++ mirror.manifold_url)))
    | some (.thirdPartyMirror mirror) =>
      if args.force then
        managram_mirror_execute env db cfg managram args.target
      else
        (db, [], .error (.userFacing
          ("Found an existing mirror from a different user at "
            ++ mirror.manifold_url
            ++ ". Append --force to your request to create a new mirror anyway.")))
    | none => managram_mirror_execute env db cfg managram args.target

/-- The `let market_id = match target {...}` block of managrams.rs
`process_managram_resolve_command` (lines 152-175): a literal id is used
as-is; a slug is looked up on the destination — a 404 is user-facing, a
market not authored by the bot is user-facing, a market the destination
already reports resolved is user-facing, any other platform failure is
internal. -/
def resolve_market_id (env : Env) (cfg : Settings)
    (target : MarketIdentifier) : Except ProcessingError String :=
  match target with
  | .id i => .ok i
  | .slug slug =>
    match env.get_market_by_slug slug with
    | .found market =>
      if market.author_id ≠ cfg.manifold.user_id then
        .error (.userFacing "Market was not created by this bot")
      else if market.is_resolved then
        .error (.userFacing "Market is already resolved")
      else
        .ok market.id
    | .notFound => .error (.userFacing "Market not found")
    | .otherError => .error .internal

/-- managrams.rs `process_managram_resolve_command`: amount gate; resolve
the target to a contract id via `resolve_market_id`; look up the owned
mirror by contract id (absence is user-facing); `sync_mirror` (failure is
internal); respond `Refund` with the outcome message. -/
def process_managram_resolve_command (env : Env) (db : Db) (cfg : Settings)
    (managram : Managram) (target : MarketIdentifier) :
    Db × List Event × Except ProcessingError Unit :=
  if managram.amount <
      cfg.manifold.managrams.resolve_cost + cfg.manifold.managrams.min_amount then
    (db, [], .error (.userFacing
      ("Resolve requests should include at least "
        ++ toString (cfg.manifold.managrams.resolve_cost
            + cfg.manifold.managrams.min_amount)
        ++ " mana.")))
  else
    match resolve_market_id env cfg target with
    | .error e => (db, [], .error e)
    | .ok market_id =>
      match get_mirror_by_contract_id db market_id with
      | none =>
        (db, [.getMirrorByContractId market_id],
         .error (.userFacing "Market not in bot database"))
      | some market_row =>
        match sync_mirror env db market_row with
        | (db1, str, .error _) =>
          (db1, .getMirrorByContractId market_id :: str, .error .internal)
        | (db1, str, .ok resolved) =>
          match respond_to_managram env cfg managram .refund
              (if resolved then "Resolved market!"
               else "Source question has not resolved yet") with
          | (rtr, .ok ()) =>
            (db1, .getMirrorByContractId market_id :: str ++ rtr, .ok ())
          | (rtr, .error ()) =>
            (db1, .getMirrorByContractId market_id :: str ++ rtr,
             .error .internal)

/-- managrams.rs `process_managram_command`: parse the message (clap; a
parse failure is user-facing with the parser's message) and dispatch. The
ping command responds `Refund "Pong!"` and then marks processed; an
unknown command only marks processed. -/
def process_managram_command (env : Env) (db : Db) (cfg : Settings)
    (managram : Managram) : Db × List Event × Except ProcessingError Unit :=
  match env.parse_message managram.message with
  | .error e => (db, [], .error (.userFacing e))
  | .ok (.mirror args) =>
    process_managram_mirror_command env db cfg managram args
  | .ok (.resolve target) =>
    process_managram_resolve_command env db cfg managram target
  | .ok .ping =>
    match respond_to_managram env cfg managram .refund "Pong!" with
    | (rtr, .error ()) => (db, rtr, .error .internal)
    | (rtr, .ok ()) =>
      match set_managram_processed db managram.id true with
      | .ok db1 => (db1, rtr ++ [.markProcessed managram.id true true], .ok ())
      | .error _ =>
        (db, rtr ++ [.markProcessed managram.id true false], .error .internal)
  | .ok (.unknown _) =>
    match set_managram_processed db managram.id true with
    | .ok db1 => (db1, [.markProcessed managram.id true true], .ok ())
    | .error _ =>
      (db, [.markProcessed managram.id true false], .error .internal)

/-- managrams.rs `process_managram` (lines 52-82): run the command;
`Ok` marks processed; `UserFacing` marks processed first and only then
sends the refund (and only when the mark write succeeded); `Internal`
marks processed best-effort (`.ok()`) and propagates the error; a panic
propagates with no further action. -/
def process_managram (env : Env) (db : Db) (cfg : Settings)
    (managram : Managram) : Db × List Event × Except ProcessingError Unit :=
  match process_managram_command env db cfg managram with
  | (db1, tr, .ok ()) =>
    match set_managram_processed db1 managram.id true with
    | .ok db2 => (db2, tr ++ [.markProcessed managram.id true true], .ok ())
    | .error _ =>
      (db1, tr ++ [.markProcessed managram.id true false], .error .internal)
  | (db1, tr, .error (.userFacing msg)) =>
    match set_managram_processed db1 managram.id true with
    | .error _ =>
      (db1, tr ++ [.markProcessed managram.id true false], .error .internal)
    | .ok db2 =>
      match respond_to_managram env cfg managram .refund msg with
      | (rtr, .ok ()) =>
        (db2, tr ++ .markProcessed managram.id true true :: rtr, .ok ())
      | (rtr, .error ()) =>
        (db2, tr ++ .markProcessed managram.id true true :: rtr,
         .error .internal)
  | (db1, tr, .error .internal) =>
    match set_managram_processed db1 managram.id true with
    | .ok db2 =>
      (db2, tr ++ [.markProcessed managram.id true true], .error .internal)
    | .error _ =>
      (db1, tr ++ [.markProcessed managram.id true false], .error .internal)
  | (db1, tr, .error .panic) => (db1, tr, .error .panic)

/-! ## Trace predicates -/

/-- Whether an event is an outbound payment call. -/
def Event.isSend : Event → Bool
  | .sendManagram _ _ _ => true
  | _ => false

/-- Whether an event is a processed-flag write attempt. -/
def Event.isMark : Event → Bool
  | .markProcessed _ _ _ => true
  | _ => false

/-- Whether an event is an auto-mirror attempt marker. -/
def Event.isMirrorAttempt : Event → Bool
  | .mirrorAttempt _ _ => true
  | _ => false

/-- Whether an event is neither a send nor a processed-flag write (such
events are irrelevant to the money-safety ordering scans). -/
def Event.neutralB (e : Event) : Bool := !e.isSend && !e.isMark

/-- True when no outbound payment call occurs before a successful
`processed := true` write for transaction `txn`: scanning left to right,
reaching a send first is a violation, reaching a successful mark first (or
never seeing a send) is fine. This is the happens-before property of the
money-safety ordering. -/
def no_send_before_mark (txn : String) : List Event → Bool
  | [] => true
  | .sendManagram _ _ _ :: _ => false
  | .markProcessed t v ok :: rest =>
    if t = txn ∧ v = true ∧ ok = true then true
    else no_send_before_mark txn rest
  | _ :: rest => no_send_before_mark txn rest

/-- True when an outbound payment call occurs strictly before the first
processed-flag write for transaction `txn` (the negation witness of the
mark-before-send ordering). -/
def send_before_any_mark (txn : String) : List Event → Bool
  | [] => false
  | .sendManagram _ _ _ :: _ => true
  | .markProcessed t _ _ :: rest =>
    if t = txn then false else send_before_any_mark txn rest
  | _ :: rest => send_before_any_mark txn rest

/-- Number of auto-mirror attempts recorded in a trace. -/
def count_mirror_attempts (tr : List Event) : Nat :=
  tr.countP Event.isMirrorAttempt

/-- Number of destination create-market calls recorded in a trace. -/
def count_create_market (tr : List Event) : Nat :=
  tr.countP fun e => decide (e = Event.createMarket)

/-! ## Concrete fixtures used by witnesses and counterexamples -/

/-- A concrete settings value. -/
def sampleSettings : Settings :=
  { manifold :=
      { user_id := "bot-user"
        client_url := "https://manifold.markets/"
        template :=
          { description_footer := "footer"
            title_retain_end_characters := 2
            max_question_length := 10
            max_description_length := 100 }
        managrams := { min_amount := 10, mirror_cost := 15, resolve_cost := 10 } }
    kalshi_add_group_ids := []
    kalshi_max_clones_per_day := 5
    metaculus_add_group_ids := []
    metaculus_max_clones_per_day := 5 }

/-- A concrete question fixture. -/
def sampleQuestion : Question :=
  { source := .metaculus
    source_url := "https://www.metaculus.com/questions/12345"
    source_id := "12345"
    question := "Will it rain?"
    criteria := none
    end_date := 1000 }

/-- A concrete destination market fixture. -/
def sampleLiteMarket : LiteMarket :=
  { id := "contract-1"
    question := "[Metaculus] Will it rain?"
    slug := "will-it-rain"
    created_time := 0
    close_time := 1000 + 86400000
    is_resolved := false }

/-- A concrete environment: parse recognises the literal messages "ping",
"mirror" and "resolve"; the slug lookup returns a resolved market authored
by someone else; market creation succeeds with `sampleLiteMarket`; the
source reports no resolution; sends succeed. -/
def sampleEnv : Env :=
  { parse_message := fun s =>
      if s = "ping" then .ok .ping
      else if s = "mirror" then
        .ok (.mirror { target := { source := .metaculus, source_id := "12345" },
                       force := false })
      else if s = "resolve" then .ok (.resolve (.slug "will-it-rain"))
      else .error ("unrecognized subcommand " ++ s)
    get_market_by_slug := fun _ =>
      .found { id := "contract-1", author_id := "bot-user",
               question := "[Metaculus] Will it rain?", slug := "will-it-rain",
               is_resolved := false }
    get_market := fun _ =>
      .ok { id := "contract-1", author_id := "bot-user",
            question := "[Metaculus] Will it rain?", slug := "will-it-rain",
            is_resolved := false }
    create_market := fun _ => .ok sampleLiteMarket
    check_resolution := fun _ _ => .ok none
    metaculus_get_question := fun _ => .ok sampleQuestion
    request_filter := fun _ => .ok ()
    resolve_market_ok := fun _ => true
    send_managram_ok := true
    now := 0 }

/-- A concrete inbound payment fixture carrying the "ping" message. -/
def samplePing : Managram :=
  { id := "txn-1", group_id := "g1", from_id := "alice", to_id := "bot-user"
    created_time := 0, amount := 10, message := "ping" }

/-- A concrete inbound payment fixture carrying an unparseable message. -/
def sampleBadMessage : Managram :=
  { id := "txn-2", group_id := "g1", from_id := "alice", to_id := "bot-user"
    created_time := 0, amount := 10, message := "banana" }

/-- A concrete inbound payment fixture carrying the "resolve" message with
a sufficient amount. -/
def sampleResolve : Managram :=
  { id := "txn-3", group_id := "g1", from_id := "alice", to_id := "bot-user"
    created_time := 0, amount := 25, message := "resolve" }

/-- A store holding only the three payment rows above, unprocessed. -/
def sampleDb : Db :=
  { markets := []
    third_party_markets := []
    managrams := [{ txn_id := "txn-1", processed := false },
                  { txn_id := "txn-2", processed := false },
                  { txn_id := "txn-3", processed := false }]
    next_market_id := 1 }

/-- An owned mirror row that is already resolved (fixture for the
monotonicity counterexample). -/
def sampleResolvedMirror : MirrorRow :=
  { id := 1, clone_date := 0, manifold_contract_id := "contract-1"
    manifold_url := "https://manifold.markets/market/will-it-rain"
    source := .metaculus, source_id := "12345"
    source_url := "https://www.metaculus.com/questions/12345"
    question := "[Metaculus] Will it rain?", resolved := true }

/-- A store holding only `sampleResolvedMirror`. -/
def sampleResolvedDb : Db :=
  { markets := [sampleResolvedMirror]
    third_party_markets := []
    managrams := []
    next_market_id := 2 }

/-- An environment whose destination reports `contract-1` as unresolved and
whose slug lookup returns a resolved market created by a different user. -/
def foreignResolvedEnv : Env :=
  { sampleEnv with
    get_market := fun _ =>
      .ok { id := "contract-1", author_id := "bot-user",
            question := "[Metaculus] Will it rain?", slug := "will-it-rain",
            is_resolved := false }
    get_market_by_slug := fun _ =>
      .found { id := "contract-9", author_id := "someone-else",
               question := "other", slug := "will-it-rain",
               is_resolved := true } }

/-- An environment whose slug lookup returns a resolved market created by
the bot itself. -/
def ownResolvedEnv : Env :=
  { sampleEnv with
    get_market_by_slug := fun _ =>
      .found { id := "contract-1", author_id := "bot-user",
               question := "[Metaculus] Will it rain?", slug := "will-it-rain",
               is_resolved := true } }

/-- A store with three unresolved Metaculus mirrors cloned within the last
24 hours (fixture for the budget-enforcement witness; `now = 0` in
`sampleEnv`, so `clone_date = -1000` is within the last day). -/
def budgetDb : Db :=
  { markets :=
      [{ sampleResolvedMirror with
          id := 1, source_id := "a1", manifold_contract_id := "c-a1",
          clone_date := -1000, resolved := false },
       { sampleResolvedMirror with
          id := 2, source_id := "a2", manifold_contract_id := "c-a2",
          clone_date := -2000, resolved := false },
       { sampleResolvedMirror with
          id := 3, source_id := "a3", manifold_contract_id := "c-a3",
          clone_date := -3000, resolved := false }]
    third_party_markets := []
    managrams := []
    next_market_id := 4 }

/-- Ten candidate questions with fresh source ids. -/
def budgetCandidates : List Question :=
  (List.range 10).map fun i =>
    { sampleQuestion with source_id := "cand" ++ toString i }

/-- A store whose only mirror row is the bot-owned mirror of
`sampleQuestion`. -/
def ownedMirrorDb : Db :=
  { markets := [sampleResolvedMirror]
    third_party_markets := []
    managrams := []
    next_market_id := 2 }

/-- Parsed arguments of a mirror command targeting `sampleQuestion`,
without `--force`. -/
def sampleMirrorArgs : MirrorArgs :=
  { target := { source := .metaculus, source_id := "12345" }, force := false }

/-- A mirror-command payment meeting the required amount
(`mirror_cost + min_amount = 25`). -/
def sampleMirrorManagram : Managram :=
  { id := "txn-4", group_id := "g1", from_id := "alice", to_id := "bot-user"
    created_time := 0, amount := 25, message := "mirror" }

/-! ## Helper lemmas -/

/-- Events that are neither sends nor processed-flag writes do not affect
the mark-before-send scan. -/
theorem no_send_before_mark_append (txn : String) (tr rest : List Event)
    (h : ∀ e ∈ tr, e.isSend = false ∧ e.isMark = false) :
    no_send_before_mark txn (tr ++ rest) = no_send_before_mark txn rest := by
  induction tr with
  | nil => rfl
  | cons e tr ih =>
    have he := h e (by simp)
    have hrest : ∀ e ∈ tr, e.isSend = false ∧ e.isMark = false :=
      fun x hx => h x (by simp [hx])
    cases e <;>
      simp_all [no_send_before_mark, Event.isSend, Event.isMark]

/-- Events that are neither sends nor processed-flag writes do not affect
the send-before-mark scan. -/
theorem send_before_any_mark_append (txn : String) (tr rest : List Event)
    (h : ∀ e ∈ tr, e.isSend = false ∧ e.isMark = false) :
    send_before_any_mark txn (tr ++ rest) = send_before_any_mark txn rest := by
  induction tr with
  | nil => rfl
  | cons e tr ih =>
    have he := h e (by simp)
    have hrest : ∀ e ∈ tr, e.isSend = false ∧ e.isMark = false :=
      fun x hx => h x (by simp [hx])
    cases e <;>
      simp_all [send_before_any_mark, Event.isSend, Event.isMark]

/-- A trace headed by a successful mark for `txn` satisfies the
mark-before-send scan outright. -/
theorem no_send_before_mark_cons_mark (txn : String) (rest : List Event) :
    no_send_before_mark txn (.markProcessed txn true true :: rest) = true := by
  simp [no_send_before_mark]

/-- A list whose elements all pass `Event.neutralB` contains no sends and
no processed-flag writes. -/
theorem all_neutral_imp (tr : List Event) (h : tr.all Event.neutralB = true) :
    ∀ e ∈ tr, e.isSend = false ∧ e.isMark = false := by
  intro e he
  have hb := List.all_eq_true.mp h e he
  simp only [Event.neutralB, Bool.and_eq_true, Bool.not_eq_true'] at hb
  exact hb

/-- The events of `resolve_mirror` are destination resolve calls and
`markets.resolved` writes only. -/
theorem resolve_mirror_allNeutral (env : Env) (db : Db) (mirror : MirrorRow) :
    (resolve_mirror env db mirror).2.1.all Event.neutralB = true := by
  unfold resolve_mirror
  split
  · cases h : set_mirror_resolved db mirror.id true <;> rfl
  · rfl

/-- The events of `sync_source_mirror` are source fetches, destination
resolve calls and `markets.resolved` writes only. -/
theorem sync_source_mirror_allNeutral (env : Env) (db : Db)
    (mirror : MirrorRow) :
    (sync_source_mirror env db mirror).2.1.all Event.neutralB = true := by
  have hr := resolve_mirror_allNeutral env db mirror
  unfold sync_source_mirror
  cases h : env.check_resolution mirror.source mirror.source_id with
  | error u => rfl
  | ok r =>
    cases r with
    | none => rfl
    | some b =>
      rcases hrm : resolve_mirror env db mirror with ⟨db1, tr, res⟩
      rw [hrm] at hr
      cases res with
      | ok u =>
        cases u
        simpa [Event.neutralB, Event.isSend, Event.isMark] using hr
      | error e =>
        simpa [Event.neutralB, Event.isSend, Event.isMark] using hr

/-- The events of `sync_mirror` are never sends or processed-flag
writes. -/
theorem sync_mirror_allNeutral (env : Env) (db : Db) (mirror : MirrorRow) :
    (sync_mirror env db mirror).2.1.all Event.neutralB = true := by
  unfold sync_mirror
  cases h : mirror.source <;>
    simp only [] <;>
    first
      | rfl
      | exact sync_source_mirror_allNeutral env db mirror

/-- A user-facing failure of the metaculus managram mirror path produces an
empty trace (the failures precede any external action). -/
theorem mirror_metaculus_userFacing_trace (env : Env) (db : Db)
    (cfg : Settings) (sid : String) (db1 : Db) (tr : List Event) (msg : String)
    (h : process_managram_mirror_metaculus env db cfg sid =
      (db1, tr, .error (.userFacing msg))) :
    tr = [] := by
  unfold process_managram_mirror_metaculus at h
  repeat' split at h
  all_goals
    first
      | (simp only [Prod.mk.injEq] at h; exact h.2.1.symm)
      | (simp at h; done)

/-- A user-facing failure of the mirror-command execution tail produces an
empty trace. -/
theorem mirror_execute_userFacing_trace (env : Env) (db : Db) (cfg : Settings)
    (m : Managram) (target : MirrorTarget) (db1 : Db) (tr : List Event)
    (msg : String)
    (h : managram_mirror_execute env db cfg m target =
      (db1, tr, .error (.userFacing msg))) :
    tr = [] := by
  unfold managram_mirror_execute at h
  repeat' split at h
  all_goals
    first
      | (simp only [Prod.mk.injEq] at h; exact h.2.1.symm)
      | (simp at h; done)
      | (rename_i db2 tr2 e heq
         ; simp only [Prod.mk.injEq, Except.error.injEq] at h
         ; obtain ⟨h1, h2, h3⟩ := h
         ; subst h3
         ; subst h2
         ; exact mirror_metaculus_userFacing_trace env db cfg _ _ _ msg heq)

/-- A user-facing failure of the mirror command produces an empty trace. -/
theorem mirror_command_userFacing_trace (env : Env) (db : Db) (cfg : Settings)
    (m : Managram) (args : MirrorArgs) (db1 : Db) (tr : List Event)
    (msg : String)
    (h : process_managram_mirror_command env db cfg m args =
      (db1, tr, .error (.userFacing msg))) :
    tr = [] := by
  unfold process_managram_mirror_command at h
  repeat' split at h
  all_goals
    first
      | (exact mirror_execute_userFacing_trace env db cfg m args.target db1 tr
          msg h)
      | (simp only [Prod.mk.injEq] at h; exact h.2.1.symm)
      | (simp at h; done)

/-- A user-facing failure of the resolve command produces a trace without
sends or processed-flag writes (at most the store lookup). -/
theorem resolve_command_userFacing_trace (env : Env) (db : Db)
    (cfg : Settings) (m : Managram) (target : MarketIdentifier) (db1 : Db)
    (tr : List Event) (msg : String)
    (h : process_managram_resolve_command env db cfg m target =
      (db1, tr, .error (.userFacing msg))) :
    tr.all Event.neutralB = true := by
  unfold process_managram_resolve_command at h
  repeat' split at h
  all_goals
    first
      | (simp only [Prod.mk.injEq] at h; rw [← h.2.1]; rfl)
      | (simp at h; done)

/-- A user-facing failure of the command stage produces a trace without
sends or processed-flag writes. -/
theorem command_userFacing_trace_neutral (env : Env) (db : Db)
    (cfg : Settings) (m : Managram) (db1 : Db) (tr : List Event) (msg : String)
    (h : process_managram_command env db cfg m =
      (db1, tr, .error (.userFacing msg))) :
    ∀ e ∈ tr, e.isSend = false ∧ e.isMark = false := by
  unfold process_managram_command at h
  repeat' split at h
  all_goals
    first
      | (simp at h; done)
      | (simp only [Prod.mk.injEq] at h
         ; rw [← h.2.1]
         ; intro e he
         ; simp at he)
      | (have htr := mirror_command_userFacing_trace env db cfg m _ db1 tr msg h
         ; rw [htr]
         ; intro e he
         ; simp at he)
      | (exact all_neutral_imp tr
          (resolve_command_userFacing_trace env db cfg m _ db1 tr msg h))

/-- C1: for every inbound payment whose command processing ends in a
user-facing failure, the store write setting the processed flag to true
happens before the outbound refund call is issued, and the refund is only
sent when that write succeeded. -/
theorem userFacing_marks_processed_before_refund (env : Env) (db : Db)
    (cfg : Settings) (m : Managram) (msg : String)
    (h : (process_managram_command env db cfg m).2.2 =
      .error (.userFacing msg)) :
    no_send_before_mark m.id (process_managram env db cfg m).2.1 = true := by
  rcases hc : process_managram_command env db cfg m with ⟨db1, tr, res⟩
  rw [hc] at h
  simp only at h
  subst h
  have hneutral := command_userFacing_trace_neutral env db cfg m db1 tr msg hc
  unfold process_managram
  rw [hc]
  cases hset : set_managram_processed db1 m.id true with
  | error u =>
    simp only [hset]
    rw [no_send_before_mark_append m.id tr _ hneutral]
    simp [no_send_before_mark]
  | ok db2 =>
    rcases hr : respond_to_managram env cfg m .refund msg with ⟨rtr, rres⟩
    cases rres with
    | ok u =>
      cases u
      simp only [hset, hr]
      rw [no_send_before_mark_append m.id tr _ hneutral]
      exact no_send_before_mark_cons_mark m.id rtr
    | error u =>
      cases u
      simp only [hset, hr]
      rw [no_send_before_mark_append m.id tr _ hneutral]
      exact no_send_before_mark_cons_mark m.id rtr

/-- The outbound-response stage always issues exactly one send to the
payment's sender. -/
theorem respond_trace (env : Env) (cfg : Settings) (m : Managram)
    (amt : ResponseAmount) (msg : String) :
    ∃ q, (respond_to_managram env cfg m amt msg).1 =
      [Event.sendManagram [m.from_id] q msg] := by
  unfold respond_to_managram
  exact ⟨_, rfl⟩

/-- A successful `mirror_question` performs exactly the create-market
call. -/
theorem mirror_question_ok_trace (env : Env) (db : Db) (cfg : Settings)
    (q : Question) (db1 : Db) (tr : List Event) (row : MirrorRow)
    (h : mirror_question env db cfg q = (db1, tr, .ok row)) :
    tr = [Event.createMarket] := by
  unfold mirror_question at h
  repeat' split at h
  all_goals
    first
      | (simp only [Prod.mk.injEq] at h; exact h.2.1.symm)
      | (simp at h; done)

/-- A successful metaculus managram mirror stage performs exactly the
create-market call. -/
theorem mirror_metaculus_cmd_ok_trace (env : Env) (db : Db) (cfg : Settings)
    (sid : String) (db1 : Db) (tr : List Event) (row : MirrorRow)
    (h : process_managram_mirror_metaculus env db cfg sid =
      (db1, tr, .ok row)) :
    tr = [Event.createMarket] := by
  unfold process_managram_mirror_metaculus at h
  cases hq : env.metaculus_get_question sid with
  | error u => simp only [hq] at h; simp at h
  | ok question =>
    simp only [hq] at h
    cases hf : env.request_filter question with
    | error e => simp only [hf] at h; simp at h
    | ok u =>
      simp only [hf] at h
      rcases hm : mirror_metaculus_question env db cfg question with ⟨db2, tr2, res⟩
      simp only [hm] at h
      cases res with
      | error e => simp at h
      | ok mirror =>
        simp only [Prod.mk.injEq] at h
        rw [← h.2.1]
        exact mirror_question_ok_trace env db cfg question db2 tr2 mirror hm

/-- A successful mirror-command execution tail performs the create-market
call, then the successful mark-processed write, then the response. -/
theorem mirror_execute_ok_trace (env : Env) (db : Db) (cfg : Settings)
    (m : Managram) (target : MirrorTarget) (db1 : Db) (tr : List Event)
    (h : managram_mirror_execute env db cfg m target = (db1, tr, .ok ())) :
    ∃ rest, tr =
      Event.createMarket :: Event.markProcessed m.id true true :: rest := by
  rcases target with ⟨src, sid⟩
  cases src
  case kalshi => unfold managram_mirror_execute at h; simp at h
  case polymarket => unfold managram_mirror_execute at h; simp at h
  case manual => unfold managram_mirror_execute at h; simp at h
  case metaculus =>
    unfold managram_mirror_execute at h
    rcases hp : process_managram_mirror_metaculus env db cfg sid with ⟨db2, tr2, res⟩
    simp only [hp] at h
    cases res with
    | error e => simp at h
    | ok mirror =>
      cases hset : set_managram_processed db2 m.id true with
      | error u => simp only [hset] at h; simp at h
      | ok db3 =>
        simp only [hset] at h
        rcases hr : respond_to_managram env cfg m .minimum
            ("Created mirror at " ++ mirror.manifold_url) with ⟨rtr, rres⟩
        cases rres with
        | ok u =>
          cases u
          simp only [hr] at h
          simp only [Prod.mk.injEq] at h
          refine ⟨rtr, ?_⟩
          rw [← h.2.1,
            mirror_metaculus_cmd_ok_trace env db cfg sid db2 tr2 mirror hp]
          rfl
        | error u =>
          cases u
          simp only [hr] at h
          simp at h

/-- A successful mirror command performs the create-market call, then the
successful mark-processed write, then the response. -/
theorem mirror_command_ok_trace (env : Env) (db : Db) (cfg : Settings)
    (m : Managram) (args : MirrorArgs) (db1 : Db) (tr : List Event)
    (h : process_managram_mirror_command env db cfg m args =
      (db1, tr, .ok ())) :
    ∃ rest, tr =
      Event.createMarket :: Event.markProcessed m.id true true :: rest := by
  unfold process_managram_mirror_command at h
  repeat' split at h
  all_goals
    first
      | (exact mirror_execute_ok_trace env db cfg m args.target db1 tr h)
      | (simp at h; done)

/-- A successful resolve command performs the store lookup, the sync
actions, and then the outbound response — in that order, with nothing
else. -/
theorem resolve_command_ok_trace (env : Env) (db : Db) (cfg : Settings)
    (m : Managram) (target : MarketIdentifier) (db1 : Db) (tr : List Event)
    (h : process_managram_resolve_command env db cfg m target =
      (db1, tr, .ok ())) :
    ∃ mid str a b c,
      tr = Event.getMirrorByContractId mid ::
        (str ++ [Event.sendManagram a b c]) ∧
      str.all Event.neutralB = true := by
  unfold process_managram_resolve_command at h
  by_cases hamt : m.amount <
    cfg.manifold.managrams.resolve_cost + cfg.manifold.managrams.min_amount
  · rw [if_pos hamt] at h
    simp at h
  · rw [if_neg hamt] at h
    cases hmid : resolve_market_id env cfg target with
    | error e => simp only [hmid] at h; simp at h
    | ok market_id =>
      simp only [hmid] at h
      cases hrow : get_mirror_by_contract_id db market_id with
      | none => simp only [hrow] at h; simp at h
      | some row =>
        simp only [hrow] at h
        rcases hsync : sync_mirror env db row with ⟨db2, str, sres⟩
        simp only [hsync] at h
        cases sres with
        | error e => simp at h
        | ok resolved =>
          rcases hr : respond_to_managram env cfg m .refund
              (if resolved then "Resolved market!"
               else "Source question has not resolved yet") with ⟨rtr, rres⟩
          cases rres with
          | error u => cases u; simp only [hr] at h; simp at h
          | ok u =>
            cases u
            simp only [hr] at h
            simp only [Prod.mk.injEq] at h
            have hstr : str.all Event.neutralB = true := by
              have hn := sync_mirror_allNeutral env db row
              rw [hsync] at hn
              exact hn
            obtain ⟨q, hq⟩ := respond_trace env cfg m .refund
              (if resolved then "Resolved market!"
               else "Source question has not resolved yet")
            rw [hr] at hq
            simp only at hq
            refine ⟨market_id, str, [m.from_id], q,
              (if resolved then "Resolved market!"
               else "Source question has not resolved yet"), ?_, hstr⟩
            rw [← h.2.1, hq]
            rfl

/-- After a successful command stage, the driver appends exactly one more
processed-flag write to the trace. -/
theorem process_managram_trace_of_ok (env : Env) (db : Db) (cfg : Settings)
    (m : Managram) (db1 : Db) (tr : List Event)
    (hc : process_managram_command env db cfg m = (db1, tr, .ok ())) :
    ∃ ok2, (process_managram env db cfg m).2.1 =
      tr ++ [Event.markProcessed m.id true ok2] := by
  unfold process_managram
  simp only [hc]
  cases hset : set_managram_processed db1 m.id true with
  | ok db2 => exact ⟨true, by simp only [hset]⟩
  | error u => exact ⟨false, by simp only [hset]⟩

/-- C2 (amended): when command execution succeeds, the mirror-command path
marks the payment processed before sending the response, but the resolve
and ping paths send the response payment before any processed-flag write
(the flag is only written afterwards). -/
theorem success_response_ordering (env : Env) (db : Db) (cfg : Settings)
    (m : Managram) :
    (∀ args, env.parse_message m.message = .ok (.mirror args) →
      (process_managram_command env db cfg m).2.2 = .ok () →
      no_send_before_mark m.id (process_managram env db cfg m).2.1 = true) ∧
    (env.parse_message m.message = .ok .ping →
      (process_managram_command env db cfg m).2.2 = .ok () →
      send_before_any_mark m.id (process_managram env db cfg m).2.1 = true) ∧
    (∀ target, env.parse_message m.message = .ok (.resolve target) →
      (process_managram_command env db cfg m).2.2 = .ok () →
      send_before_any_mark m.id (process_managram env db cfg m).2.1 = true) := by
  refine ⟨?_, ?_, ?_⟩
  · intro args hparse hok
    rcases hc : process_managram_command env db cfg m with ⟨db1, tr, res⟩
    rw [hc] at hok
    simp only at hok
    subst hok
    obtain ⟨ok2, hfull⟩ := process_managram_trace_of_ok env db cfg m db1 tr hc
    unfold process_managram_command at hc
    simp only [hparse] at hc
    obtain ⟨rest, htr⟩ := mirror_command_ok_trace env db cfg m args db1 tr hc
    rw [hfull, htr]
    simp [no_send_before_mark]
  · intro hparse hok
    rcases hc : process_managram_command env db cfg m with ⟨db1, tr, res⟩
    rw [hc] at hok
    simp only at hok
    subst hok
    obtain ⟨ok2, hfull⟩ := process_managram_trace_of_ok env db cfg m db1 tr hc
    unfold process_managram_command at hc
    simp only [hparse] at hc
    rcases hr : respond_to_managram env cfg m .refund "Pong!" with ⟨rtr, rres⟩
    cases rres with
    | error u => cases u; simp only [hr] at hc; simp at hc
    | ok u =>
      cases u
      simp only [hr] at hc
      cases hset : set_managram_processed db m.id true with
      | error u => simp only [hset] at hc; simp at hc
      | ok db2 =>
        simp only [hset] at hc
        simp only [Prod.mk.injEq] at hc
        obtain ⟨q, hq⟩ := respond_trace env cfg m .refund "Pong!"
        rw [hr] at hq
        simp only at hq
        rw [hfull, ← hc.2.1, hq]
        simp [send_before_any_mark]
  · intro target hparse hok
    rcases hc : process_managram_command env db cfg m with ⟨db1, tr, res⟩
    rw [hc] at hok
    simp only at hok
    subst hok
    obtain ⟨ok2, hfull⟩ := process_managram_trace_of_ok env db cfg m db1 tr hc
    unfold process_managram_command at hc
    simp only [hparse] at hc
    obtain ⟨mid, str, a, b, c, htr, hstr⟩ :=
      resolve_command_ok_trace env db cfg m target db1 tr hc
    rw [hfull, htr]
    have hstep : send_before_any_mark m.id
        ((Event.getMirrorByContractId mid ::
          (str ++ [Event.sendManagram a b c])) ++
          [Event.markProcessed m.id true ok2]) =
        send_before_any_mark m.id
          ((str ++ [Event.sendManagram a b c]) ++
            [Event.markProcessed m.id true ok2]) := rfl
    rw [hstep, List.append_assoc,
      send_before_any_mark_append m.id str _ (all_neutral_imp str hstr)]
    simp [send_before_any_mark]

/-- C1 witness: a payment with an unparseable message is a user-facing
failure, and its processing trace never sends before the successful
mark-processed write. -/
theorem userFacing_marks_processed_before_refund_witness :
    no_send_before_mark sampleBadMessage.id
      (process_managram sampleEnv sampleDb sampleSettings sampleBadMessage).2.1 =
      true :=
  userFacing_marks_processed_before_refund sampleEnv sampleDb sampleSettings
    sampleBadMessage "unrecognized subcommand banana" (by rfl)

/-- C2 counterexample: a concrete ping payment is processed successfully,
yet the outbound response is sent strictly before any processed-flag
write — refuting the claim that every success path marks processed before
sending. -/
theorem ping_sends_before_marking :
    (process_managram_command sampleEnv sampleDb sampleSettings
      samplePing).2.2 = .ok () ∧
    send_before_any_mark samplePing.id
      (process_managram sampleEnv sampleDb sampleSettings samplePing).2.1 =
      true := by
  exact ⟨rfl, by decide⟩

/-- C2 witness: the ping clause of the amended ordering theorem applied to
the concrete ping payment. -/
theorem success_response_ordering_witness :
    send_before_any_mark samplePing.id
      (process_managram sampleEnv sampleDb sampleSettings samplePing).2.1 =
      true :=
  (success_response_ordering sampleEnv sampleDb sampleSettings samplePing).2.1
    (by rfl) (by rfl)

/-- C3: when a mirror for `(q.source, q.source_id)` already exists,
`mirror_question` fails with `AlreadyMirrored` carrying that row and makes
no external call; on a fresh store a first call creates the row with one
create-market call and a second call returns `AlreadyMirrored` with that
row and an empty trace — one create-market call in total. -/
theorem mirror_question_idempotent (env : Env) (db : Db) (cfg : Settings)
    (q : Question) (market : LiteMarket) :
    (∀ mm, get_mirror_by_source_id db q.source q.source_id = some mm →
      mirror_question env db cfg q = (db, [], .error (.alreadyMirrored mm))) ∧
    (get_mirror_by_source_id db q.source q.source_id = none →
     env.create_market (CreateMarketArgs.from_question cfg env.now q) =
       .ok market →
     (∀ r ∈ db.markets, r.manifold_contract_id ≠ market.id) →
     ∃ row db1,
       mirror_question env db cfg q = (db1, [Event.createMarket], .ok row) ∧
       row.source = q.source ∧ row.source_id = q.source_id ∧
       row.resolved = false ∧
       mirror_question env db1 cfg q =
         (db1, [], .error (.alreadyMirrored row))) := by
  constructor
  · intro mm hm
    unfold mirror_question
    simp only [hm]
  · intro hfresh hcreate hcid
    have hfresh' : db.markets.find?
        (fun r => decide (r.source = q.source ∧ r.source_id = q.source_id)) =
        none := hfresh
    have hp : ∀ r ∈ db.markets,
        decide (r.source = q.source ∧ r.source_id = q.source_id) = false := by
      intro r hr
      have := List.find?_eq_none.mp hfresh' r hr
      simpa using this
    have hconf : (db.markets.any fun r =>
        decide (r.manifold_contract_id = market.id ∨
          (r.source = q.source ∧ r.source_id = q.source_id))) = false := by
      rw [List.any_eq_false]
      intro r hr
      have h1 := hcid r hr
      have h2 : ¬ (r.source = q.source ∧ r.source_id = q.source_id) := by
        simpa using hp r hr
      simp [h1, h2]
    unfold mirror_question
    simp only [hfresh, hcreate]
    unfold insert_mirror
    rw [if_neg (by rw [hconf]; simp)]
    refine ⟨_, _, rfl, rfl, rfl, rfl, ?_⟩
    have hfind : get_mirror_by_source_id
        { db with
          markets := db.markets ++
            [{ id := db.next_market_id
               clone_date := env.now
               manifold_contract_id := market.id
               manifold_url := market_url cfg market.slug
               source := q.source
               source_id := q.source_id
               source_url := q.source_url
               question := q.question
               resolved := false }]
          next_market_id := db.next_market_id + 1 }
        q.source q.source_id =
        some
          { id := db.next_market_id
            clone_date := env.now
            manifold_contract_id := market.id
            manifold_url := market_url cfg market.slug
            source := q.source
            source_id := q.source_id
            source_url := q.source_url
            question := q.question
            resolved := false } := by
      unfold get_mirror_by_source_id
      simp only [List.find?_append, hfresh', Option.none_or]
      simp [List.find?]
    simp only [hfind]

/-- C3 witness: the two-call scenario at a concrete fresh store. -/
theorem mirror_question_idempotent_witness :
    ∃ row db1,
      mirror_question sampleEnv sampleDb sampleSettings sampleQuestion =
        (db1, [Event.createMarket], .ok row) ∧
      row.source = sampleQuestion.source ∧
      row.source_id = sampleQuestion.source_id ∧
      row.resolved = false ∧
      mirror_question sampleEnv db1 sampleSettings sampleQuestion =
        (db1, [], .error (.alreadyMirrored row)) :=
  (mirror_question_idempotent sampleEnv sampleDb sampleSettings
    sampleQuestion sampleLiteMarket).2 (by rfl) (by rfl)
    (by intro r hr; simp [sampleDb] at hr)

/-- `resolve_mirror` only ever writes `resolved := true`. -/
theorem resolve_mirror_set_events (env : Env) (db : Db) (mirror : MirrorRow)
    (rid : Int) (v : Bool)
    (hv : Event.setMirrorResolved rid v ∈ (resolve_mirror env db mirror).2.1) :
    v = true := by
  unfold resolve_mirror at hv
  split at hv
  · cases hset : set_mirror_resolved db mirror.id true <;>
      simp only [hset] at hv <;> simp at hv <;> exact hv.2
  · simp at hv

/-- The per-source sync path only ever writes `resolved := true`. -/
theorem sync_source_set_events (env : Env) (db : Db) (mirror : MirrorRow)
    (rid : Int) (v : Bool)
    (hv : Event.setMirrorResolved rid v ∈
      (sync_source_mirror env db mirror).2.1) :
    v = true := by
  unfold sync_source_mirror at hv
  cases hc : env.check_resolution mirror.source mirror.source_id with
  | error u => simp only [hc] at hv; simp at hv
  | ok r =>
    cases r with
    | none => simp only [hc] at hv; simp at hv
    | some b =>
      simp only [hc] at hv
      rcases hrm : resolve_mirror env db mirror with ⟨db1, tr, res⟩
      simp only [hrm] at hv
      cases res with
      | ok u =>
        cases u
        simp at hv
        exact resolve_mirror_set_events env db mirror rid v
          (by rw [hrm]; exact hv)
      | error e =>
        simp at hv
        exact resolve_mirror_set_events env db mirror rid v
          (by rw [hrm]; exact hv)

/-- C4 (amended): the resolution-sync path only ever writes
`resolved := true` (so it can only flip false→true), while the
reconciliation path writes exactly the destination-reported value — which
may be `false` for a row whose stored flag was `true`. -/
theorem resolved_flag_writes (env : Env) (db : Db) (mirror : MirrorRow) :
    (∀ rid v, Event.setMirrorResolved rid v ∈ (sync_mirror env db mirror).2.1 →
      v = true) ∧
    (∀ market, env.get_market mirror.manifold_contract_id = .ok market →
      ∀ rid v, Event.setMirrorResolved rid v ∈
        (sync_manifold_mirror_to_db env db mirror).2.1 →
        v = market.is_resolved) := by
  constructor
  · intro rid v hv
    revert hv
    unfold sync_mirror
    cases mirror.source
    case polymarket => intro hv; simp at hv
    case manual => intro hv; simp at hv
    case metaculus => exact sync_source_set_events env db mirror rid v
    case kalshi => exact sync_source_set_events env db mirror rid v
  · intro market hm rid v hv
    unfold sync_manifold_mirror_to_db at hv
    simp only [hm] at hv
    split at hv
    · cases hset : set_mirror_resolved db mirror.id market.is_resolved <;>
        simp only [hset] at hv <;> simp at hv <;> exact hv.2
    · simp at hv

/-- C4 counterexample: the claim says `resolved` never transitions
true→false under any operation, but reconciliation at a concrete store
whose destination reports the mirror unresolved rewrites the stored flag
from true to false. -/
theorem reconciliation_unsets_resolved :
    sampleResolvedMirror.resolved = true ∧
    (sync_manifold_mirror_to_db foreignResolvedEnv sampleResolvedDb
      sampleResolvedMirror).1.markets =
      [{ sampleResolvedMirror with resolved := false }] := by
  exact ⟨rfl, by decide⟩

/-- C4 witness: at the concrete resolved store, reconciliation's write
event carries exactly the destination-reported value. -/
theorem resolved_flag_writes_witness :
    Event.setMirrorResolved 1 false ∈
      (sync_manifold_mirror_to_db foreignResolvedEnv sampleResolvedDb
        sampleResolvedMirror).2.1 ∧
    false = ({ id := "contract-1", author_id := "bot-user",
               question := "[Metaculus] Will it rain?", slug := "will-it-rain",
               is_resolved := false } : FullMarket).is_resolved :=
  ⟨by decide,
   (resolved_flag_writes foreignResolvedEnv sampleResolvedDb
      sampleResolvedMirror).2
     { id := "contract-1", author_id := "bot-user",
       question := "[Metaculus] Will it rain?", slug := "will-it-rain",
       is_resolved := false }
     (by rfl) 1 false (by decide)⟩

/-- `mirror_question` itself emits no attempt markers (those belong to the
auto-mirror loop). -/
theorem mirror_question_no_attempts (env : Env) (db : Db) (cfg : Settings)
    (q : Question) :
    count_mirror_attempts (mirror_question env db cfg q).2.1 = 0 := by
  unfold mirror_question
  repeat' split
  all_goals rfl

/-- Each non-dry auto-mirror loop iteration records exactly one mirror
attempt. -/
theorem auto_mirror_step_attempts (env : Env) (cfg : Settings)
    (acc : Db × List Event) (q : Question) :
    count_mirror_attempts (auto_mirror_step env cfg false acc q).2 =
      count_mirror_attempts acc.2 + 1 := by
  unfold auto_mirror_step
  rw [if_neg (by simp)]
  rcases hm : mirror_question env acc.1 cfg q with ⟨db1, tr, res⟩
  simp only [hm]
  have h0 := mirror_question_no_attempts env acc.1 cfg q
  rw [hm] at h0
  simp only at h0
  unfold count_mirror_attempts at h0 ⊢
  simp [List.countP_append, List.countP_cons, h0, Event.isMirrorAttempt]

/-- A non-dry auto-mirror run records one attempt per selected
candidate. -/
theorem auto_mirror_fold_attempts (env : Env) (cfg : Settings)
    (l : List Question) (acc : Db × List Event) :
    count_mirror_attempts
      ((l.foldl (auto_mirror_step env cfg false) acc)).2 =
      count_mirror_attempts acc.2 + l.length := by
  induction l generalizing acc with
  | nil => simp
  | cons q l ih =>
    simp only [List.foldl_cons]
    rw [ih, auto_mirror_step_attempts, List.length_cons]
    omega

/-- C5: the autonomous selection pass takes the eligible candidates in
source order up to the remaining budget `B - min(c, B)` (Nat subtraction,
i.e. `max(0, B - min(c, B))`): it selects the prefix of that length,
selects at most that many, selects none when `c ≥ B`, and in a non-dry run
attempts exactly one mirror per selected candidate. -/
theorem budget_enforcement (env : Env) (db : Db) (cfg : Settings)
    (source : QuestionSource) (B : Nat) (raw : List Question) :
    (auto_mirror_selected db source B env.now raw =
      (raw.filter fun q => (get_any_mirror db source q.source_id).isNone).take
        (min (B - min (clone_count_today db source env.now) B)
          (raw.filter fun q =>
            (get_any_mirror db source q.source_id).isNone).length)) ∧
    (auto_mirror_selected db source B env.now raw).length ≤
      B - min (clone_count_today db source env.now) B ∧
    (B ≤ clone_count_today db source env.now →
      auto_mirror_selected db source B env.now raw = []) ∧
    count_mirror_attempts (auto_mirror env db cfg source B raw false).2 =
      (auto_mirror_selected db source B env.now raw).length := by
  refine ⟨rfl, ?_, ?_, ?_⟩
  · unfold auto_mirror_selected
    simp only [List.length_take]
    omega
  · intro hc
    unfold auto_mirror_selected
    have : B - min (clone_count_today db source env.now) B = 0 := by omega
    rw [this]
    simp
  · unfold auto_mirror
    rw [auto_mirror_fold_attempts]
    simp [count_mirror_attempts]

/-- C5 witness: daily budget 5, three fresh unresolved clones, ten
eligible candidates — exactly two are selected and attempted; with budget
2 (≤ the three fresh clones) nothing is selected. -/
theorem budget_enforcement_witness :
    (auto_mirror_selected budgetDb .metaculus 5 sampleEnv.now
      budgetCandidates).length = 2 ∧
    count_mirror_attempts
      (auto_mirror sampleEnv budgetDb sampleSettings .metaculus 5
        budgetCandidates false).2 = 2 ∧
    auto_mirror_selected budgetDb .metaculus 2 sampleEnv.now
      budgetCandidates = [] :=
  ⟨by decide,
   by
    rw [(budget_enforcement sampleEnv budgetDb sampleSettings .metaculus 5
      budgetCandidates).2.2.2]
    decide,
   (budget_enforcement sampleEnv budgetDb sampleSettings .metaculus 2
      budgetCandidates).2.2.1 (by decide)⟩

/-- C6: for a sufficiently funded mirror command, an existing owned mirror
always yields the user-facing "already exists" failure regardless of
`--force`; an existing third-party mirror yields the user-facing
"existing mirror from a different user" failure exactly when `--force` is
absent, and with `--force` it is ignored and processing continues with the
execution tail. -/
theorem mirror_command_duplicate_checks (env : Env) (db : Db) (cfg : Settings)
    (m : Managram) (args : MirrorArgs)
    (hamt : ¬ m.amount <
      cfg.manifold.managrams.mirror_cost + cfg.manifold.managrams.min_amount) :
    (∀ mirror, get_any_mirror db args.target.source args.target.source_id =
        some (.mirror mirror) →
      process_managram_mirror_command env db cfg m args =
        (db, [], .error (.userFacing
          ("Mirror already exists: " ++ mirror.manifold_url)))) ∧
    (∀ tp, get_any_mirror db args.target.source args.target.source_id =
        some (.thirdPartyMirror tp) →
      (args.force = false →
        process_managram_mirror_command env db cfg m args =
          (db, [], .error (.userFacing
            ("Found an existing mirror from a different user at "
              ++ tp.manifold_url
              ++ ". Append --force to your request to create a new mirror anyway.")))) ∧
      (args.force = true →
        process_managram_mirror_command env db cfg m args =
          managram_mirror_execute env db cfg m args.target)) := by
  constructor
  · intro mirror hm
    unfold process_managram_mirror_command
    rw [if_neg hamt]
    simp only [hm]
  · intro tp hm
    constructor
    · intro hforce
      unfold process_managram_mirror_command
      rw [if_neg hamt]
      simp only [hm, hforce]
      simp
    · intro hforce
      unfold process_managram_mirror_command
      rw [if_neg hamt]
      simp only [hm, hforce]
      simp

/-- C6 witness: at a concrete store holding an owned mirror for the
target, the funded mirror command fails with "already exists". -/
theorem mirror_command_duplicate_checks_witness :
    process_managram_mirror_command sampleEnv ownedMirrorDb sampleSettings
      sampleMirrorManagram sampleMirrorArgs =
      (ownedMirrorDb, [], .error (.userFacing
        ("Mirror already exists: " ++ sampleResolvedMirror.manifold_url))) :=
  (mirror_command_duplicate_checks sampleEnv ownedMirrorDb sampleSettings
    sampleMirrorManagram sampleMirrorArgs
    (by norm_num [sampleMirrorManagram, sampleSettings])).1
    sampleResolvedMirror (by rfl)

/-- C7: the created market's close time is `end_date + 1 day` when the end
date is strictly in the future at creation time, and `now + 1 week`
otherwise. -/
theorem close_time_rule (cfg : Settings) (now : Int) (q : Question) :
    (q.end_date > now →
      (CreateMarketArgs.from_question cfg now q).close_time =
        q.end_date + millisPerDay) ∧
    (¬ q.end_date > now →
      (CreateMarketArgs.from_question cfg now q).close_time =
        now + millisPerWeek) := by
  constructor <;> intro h <;> simp [CreateMarketArgs.from_question, h]

/-- C7 witness: `sampleQuestion` ends in the future of time 0, so its
close time is the end date plus one day. -/
theorem close_time_rule_witness :
    (CreateMarketArgs.from_question sampleSettings 0 sampleQuestion).close_time =
      sampleQuestion.end_date + millisPerDay :=
  (close_time_rule sampleSettings 0 sampleQuestion).1 (by decide)

/-- C9: the response amount is exactly the inbound amount for `Refund`,
exactly the configured minimum for `Minimum`, and exactly `x` for
`Amount x`. -/
theorem response_amount_policy (env : Env) (cfg : Settings) (m : Managram)
    (msg : String) :
    (respond_to_managram env cfg m .refund msg).1 =
      [Event.sendManagram [m.from_id] m.amount msg] ∧
    (respond_to_managram env cfg m .minimum msg).1 =
      [Event.sendManagram [m.from_id]
        cfg.manifold.managrams.min_amount msg] ∧
    ∀ x, (respond_to_managram env cfg m (.amount x) msg).1 =
      [Event.sendManagram [m.from_id] x msg] :=
  ⟨rfl, rfl, fun _ => rfl⟩

/-- C8: when the formatted title exceeds the configured maximum (and the
configuration leaves room for the marker), the produced title has exactly
the maximum length and ends with `"..."` followed by the last
`title_retain_end_characters` characters of the untruncated title; titles
within the limit are unchanged. -/
theorem title_truncation (tmpl : MarketTemplate) (q : Question)
    (hcfg : tmpl.title_retain_end_characters + 3 ≤ tmpl.max_question_length) :
    ((formatted_title q).length > tmpl.max_question_length →
      (title_from_question tmpl q).length = tmpl.max_question_length ∧
      ∃ pre, title_from_question tmpl q =
        pre ++ "...".toList ++
          (formatted_title q).drop
            ((formatted_title q).length -
              tmpl.title_retain_end_characters)) ∧
    (¬ (formatted_title q).length > tmpl.max_question_length →
      title_from_question tmpl q = formatted_title q) := by
  have h3 : ("...".toList).length = 3 := rfl
  constructor
  · intro hlen
    have hdef : title_from_question tmpl q =
        (formatted_title q).take
          (tmpl.max_question_length - (tmpl.title_retain_end_characters + 3))
          ++ "...".toList ++
          (formatted_title q).drop
            (tmpl.max_question_length -
              (tmpl.title_retain_end_characters + 3)
              + ((formatted_title q).length + 3 -
                tmpl.max_question_length)) := by
      simp only [title_from_question]
      rw [if_pos hlen]
    have hcut : tmpl.max_question_length -
        (tmpl.title_retain_end_characters + 3) +
        ((formatted_title q).length + 3 - tmpl.max_question_length) =
        (formatted_title q).length - tmpl.title_retain_end_characters := by
      omega
    rw [hdef, hcut]
    constructor
    · simp only [List.length_append, List.length_take, List.length_drop, h3]
      omega
    · exact ⟨_, rfl⟩
  · intro hlen
    simp only [title_from_question]
    rw [if_neg hlen]

/-- C8 witness: the sample question's formatted title has 26 characters,
exceeding the configured maximum of 10. -/
theorem title_truncation_witness :
    (title_from_question sampleSettings.manifold.template
      sampleQuestion).length = 10 ∧
    ∃ pre, title_from_question sampleSettings.manifold.template
        sampleQuestion =
      pre ++ "...".toList ++
        (formatted_title sampleQuestion).drop
          ((formatted_title sampleQuestion).length - 2) :=
  (title_truncation sampleSettings.manifold.template sampleQuestion
    (by decide)).1 (by decide)

/-- C10 counterexample: the claim requires the user-facing message
"Market is already resolved" whenever the destination reports the slug's
market resolved, but a resolved market created by a different user fails
with "Market was not created by this bot" instead. -/
theorem resolve_foreign_resolved_message :
    (∃ mkt, foreignResolvedEnv.get_market_by_slug "will-it-rain" =
      .found mkt ∧ mkt.is_resolved = true) ∧
    process_managram_resolve_command foreignResolvedEnv sampleDb
      sampleSettings sampleResolve (.slug "will-it-rain") =
      (sampleDb, [],
        .error (.userFacing "Market was not created by this bot")) ∧
    "Market was not created by this bot" ≠ "Market is already resolved" := by
  refine ⟨⟨_, rfl, rfl⟩, ?_, by decide⟩
  unfold process_managram_resolve_command
  rw [if_neg (by norm_num [sampleResolve, sampleSettings])]
  rfl

/-- C10 (amended): for a slug target whose destination lookup reports a
resolved market, the resolve command performs no store lookup and no sync
action (its trace is empty); when that market was moreover created by the
bot and the payment meets the required amount, the failure is exactly the
user-facing "Market is already resolved". -/
theorem resolve_already_resolved_guard (env : Env) (db : Db) (cfg : Settings)
    (m : Managram) (slug : String) (market : FullMarket)
    (hm : env.get_market_by_slug slug = .found market)
    (hres : market.is_resolved = true) :
    ((process_managram_resolve_command env db cfg m (.slug slug)).2.1 = []) ∧
    (market.author_id = cfg.manifold.user_id →
     ¬ m.amount < cfg.manifold.managrams.resolve_cost +
        cfg.manifold.managrams.min_amount →
     process_managram_resolve_command env db cfg m (.slug slug) =
       (db, [], .error (.userFacing "Market is already resolved"))) := by
  constructor
  · unfold process_managram_resolve_command
    by_cases hamt : m.amount < cfg.manifold.managrams.resolve_cost +
        cfg.manifold.managrams.min_amount
    · rw [if_pos hamt]
    · rw [if_neg hamt]
      have he : ∃ e, resolve_market_id env cfg (.slug slug) =
          Except.error e := by
        unfold resolve_market_id
        simp only [hm]
        by_cases hauth : market.author_id ≠ cfg.manifold.user_id
        · rw [if_pos hauth]
          exact ⟨_, rfl⟩
        · rw [if_neg hauth, if_pos hres]
          exact ⟨_, rfl⟩
      obtain ⟨e, he⟩ := he
      simp only [he]
  · intro hauth hamt
    unfold process_managram_resolve_command
    rw [if_neg hamt]
    have he : resolve_market_id env cfg (.slug slug) =
        Except.error (.userFacing "Market is already resolved") := by
      unfold resolve_market_id
      simp only [hm]
      rw [if_neg (by simp [hauth]), if_pos hres]
    simp only [he]

/-- C10 witness: a resolved bot-owned market behind the slug makes the
funded resolve command fail with "Market is already resolved" and no
store or sync activity. -/
theorem resolve_already_resolved_guard_witness :
    process_managram_resolve_command ownResolvedEnv sampleDb sampleSettings
      sampleResolve (.slug "will-it-rain") =
      (sampleDb, [], .error (.userFacing "Market is already resolved")) :=
  (resolve_already_resolved_guard ownResolvedEnv sampleDb sampleSettings
    sampleResolve "will-it-rain"
    { id := "contract-1", author_id := "bot-user",
      question := "[Metaculus] Will it rain?", slug := "will-it-rain",
      is_resolved := true }
    (by rfl) (by rfl)).2 (by rfl)
    (by norm_num [sampleResolve, sampleSettings])

end MirrorBot
